import Mathlib

set_option maxRecDepth 16384

/-!
Formal model of `src/scraper.py` (class `SiteScraper`), a single-domain web
scraper that crawls pages, converts them to markdown, and writes a site index.

Strings are modelled as Lean `String`s; every Python string operation used by
the scraper (`strip`, `split`, `join`, `lower`, `endswith`, substring and
character containment, `len`) is given an explicit executable definition over
the underlying character list, matching Python semantics on the character
level.  `urllib.parse.urlparse` is modelled by `urlparse` below, following
the CPython `urlsplit` algorithm for the components the scraper reads
(`netloc`, `path`).
-/

namespace SiteScraper

/-- Python whitespace characters recognised by `str.strip()` and `\s`. -/
def isPyWs (c : Char) : Bool :=
  c = ' ' || c = '\t' || c = '\n' || c = '\x0d' || c = '\x0b' || c = '\x0c'

/-- Python `str.strip()`: remove leading and trailing whitespace. -/
def pyStrip (s : String) : String :=
  ⟨((s.data.dropWhile isPyWs).reverse.dropWhile isPyWs).reverse⟩

/-- Strip a given character from both ends, Python `str.strip(c)`. -/
def stripChar (s : String) (c : Char) : String :=
  ⟨((s.data.dropWhile (· = c)).reverse.dropWhile (· = c)).reverse⟩

/-- Python `str.lower()` (ASCII case folding, which covers all scraper inputs). -/
def pyLower (s : String) : String :=
  ⟨s.data.map Char.toLower⟩

/-- Python `len` on a string: number of characters. -/
def strLen (s : String) : Nat :=
  s.data.length

/-- Boolean infix test on character lists. -/
def isInfixOfCh : List Char → List Char → Bool
  | n, [] => n.isEmpty
  | n, c :: cs => n.isPrefixOf (c :: cs) || isInfixOfCh n cs

/-- Python `sub in s` substring containment. -/
def strContains (hay needle : String) : Bool :=
  isInfixOfCh needle.data hay.data

/-- Python `c in s` character containment. -/
def strHasChar (s : String) (c : Char) : Bool :=
  s.data.contains c

/-- Python `s.endswith(suffix)`. -/
def strEndsWith (s suffix : String) : Bool :=
  suffix.data.isSuffixOf s.data

/-- Python `s.startswith(p)`. -/
def strStartsWith (s p : String) : Bool :=
  p.data.isPrefixOf s.data

/-- Split a character list at each occurrence of `c` (Python `str.split(c)`). -/
def splitOnCharList (c : Char) : List Char → List (List Char)
  | [] => [[]]
  | x :: xs =>
    if x = c then [] :: splitOnCharList c xs
    else
      match splitOnCharList c xs with
      | [] => [[x]]
      | y :: ys => (x :: y) :: ys

/-- Python `s.split(sep)` with a newline separator, as used by `_save_markdown`. -/
def splitLines (s : String) : List String :=
  (splitOnCharList '\n' s.data).map (⟨·⟩)

/-- Python `sep.join(lines)` with a newline separator. -/
def joinLines (l : List String) : String :=
  ⟨List.intercalate ['\n'] (l.map String.data)⟩

/-- Python `s.replace(a, b)` for single characters. -/
def replaceChar (s : String) (a b : Char) : String :=
  ⟨s.data.map (fun c => if c = a then b else c)⟩

/-! ## `urllib.parse.urlparse` model

Follows CPython `urlsplit`: an optional scheme (a leading `:`-terminated run
of scheme characters starting with a letter) is removed first; if the
remainder starts with `//` the netloc extends up to the next `/`, `?` or `#`;
the fragment is split off at the first `#`, then the query at the first `?`;
what remains is the path. -/

/-- The parsed components the scraper reads. -/
structure ParsedUrl where
  scheme : String
  netloc : String
  path : String
  query : String
  fragment : String
deriving DecidableEq

/-- Break a character list at the first occurrence of `c`; the second
component is `none` when `c` does not occur. -/
def breakAtChar (c : Char) : List Char → List Char × Option (List Char)
  | [] => ([], none)
  | x :: xs =>
    if x = c then ([], some xs)
    else
      match breakAtChar c xs with
      | (a, b) => (x :: a, b)

/-- Characters allowed in a URL scheme after the leading letter. -/
def isSchemeChar (c : Char) : Bool :=
  c.isAlpha || c.isDigit || c = '+' || c = '-' || c = '.'

/-- Split a leading `scheme:` off a URL, if the prefix before the first `:`
is a valid scheme name. -/
def splitScheme (l : List Char) : Option (List Char × List Char) :=
  match breakAtChar ':' l with
  | (_, none) => none
  | (before, some after) =>
    match before with
    | [] => none
    | c :: cs =>
      if c.isAlpha && cs.all isSchemeChar then some (before.map Char.toLower, after)
      else none

/-- Take the netloc: everything up to the first `/`, `?` or `#`. -/
def takeNetloc : List Char → List Char × List Char
  | [] => ([], [])
  | c :: cs =>
    if c = '/' || c = '?' || c = '#' then ([], c :: cs)
    else
      match takeNetloc cs with
      | (a, b) => (c :: a, b)

/-- Model of `urllib.parse.urlparse` restricted to the fields the scraper
uses (path parameters are not split off, as no scraper input contains `;`). -/
def urlparse (url : String) : ParsedUrl :=
  let l := url.data
  let sr := match splitScheme l with
    | some (s, r) => (s, r)
    | none => (([] : List Char), l)
  let nr := match sr.2 with
    | '/' :: '/' :: r => takeNetloc r
    | r => (([] : List Char), r)
  let rf := match breakAtChar '#' nr.2 with
    | (a, some b) => (a, b)
    | (a, none) => (a, ([] : List Char))
  let pq := match breakAtChar '?' rf.1 with
    | (a, some b) => (a, b)
    | (a, none) => (a, ([] : List Char))
  ⟨⟨sr.1⟩, ⟨nr.1⟩, ⟨pq.1⟩, ⟨pq.2⟩, ⟨rf.2⟩⟩

/-! ## URL filter: `SiteScraper._is_valid_url` -/

/-- The file-download extensions rejected by the filter. -/
def downloadExtensions : List String :=
  [".pdf", ".jpg", ".png", ".gif", ".jpeg", ".doc", ".docx"]

/-- The social-media substrings rejected by the filter. -/
def socialPatterns : List String :=
  ["facebook.com", "twitter.com", "linkedin.com", "instagram.com"]

/-- Python truthiness of the optional `self.language` string. -/
def langTruthy : Option String → Bool
  | none => false
  | some l => l ≠ ""

/-- The language-path test of `_is_valid_url`: the lowercased path must start
with `/lang/` or equal `/lang` (with `lang` lowercased). -/
def pathLangOk (lang : String) (url : String) : Bool :=
  let url_path := pyLower (urlparse url).path
  strStartsWith url_path ("/" ++ pyLower lang ++ "/") || url_path = "/" ++ pyLower lang

/-- Model of `SiteScraper._is_valid_url` (the `domain` and `language` instance
fields become parameters).  Check order follows the source: emptiness, domain,
anchor, download extension, social-media pattern, language path. -/
def is_valid_url (domain : String) (language : Option String) (url : String) : Bool :=
  if url = "" then false
  else if (urlparse url).netloc ≠ domain then false
  else if strHasChar url '#' then false
  else if downloadExtensions.any (fun ext => strEndsWith (pyLower url) ext) then false
  else if socialPatterns.any (fun p => strContains (pyLower url) p) then false
  else if langTruthy language then
    match language with
    | some lang => if !pathLangOk lang url then false else true
    | none => true
  else true

/-! ## Text cleaning: `SiteScraper._clean_text` -/

/-- Collapse runs of whitespace to a single space (`re.sub(r'\s+', ' ', text)`).
The flag records whether the previous character was whitespace. -/
def collapseWsAux : Bool → List Char → List Char
  | _, [] => []
  | prevWs, c :: cs =>
    if isPyWs c then
      if prevWs then collapseWsAux true cs else ' ' :: collapseWsAux true cs
    else c :: collapseWsAux false cs

/-- Markdown control characters escaped by `_clean_text`. -/
def isMdSpecial (c : Char) : Bool :=
  c = '*' || c = '_' || c = '`' || c = '#' || c = '[' || c = ']'

/-- Prefix each markdown control character with a backslash
(`re.sub` with backreference in the source). -/
def escapeMd : List Char → List Char
  | [] => []
  | c :: cs => if isMdSpecial c then '\\' :: c :: escapeMd cs else c :: escapeMd cs

/-- Model of `SiteScraper._clean_text`: strip, collapse whitespace runs,
escape markdown control characters.  Empty input stays empty. -/
def clean_text (s : String) : String :=
  ⟨escapeMd (collapseWsAux false (pyStrip s).data)⟩

/-! ## Persistence: `SiteScraper._save_markdown` -/

/-- Characters replaced by `_` in filenames (`re.sub(r'[<>:"/\\|?*]', '_', filename)`). -/
def isFsHostile (c : Char) : Bool :=
  c = '<' || c = '>' || c = ':' || c = '"' || c = '/' || c = '\\' ||
  c = '|' || c = '?' || c = '*'

/-- Filename sanitization in `_save_markdown`. -/
def sanitizeFilename (s : String) : String :=
  ⟨s.data.map (fun c => if isFsHostile c then '_' else c)⟩

/-- Outcome of `_save_markdown`: either nothing is written (the source
returns `False` before touching the filesystem) or a file with the given
path and content is written (the source returns `True`). -/
inductive SaveResult where
  | skipped : SaveResult
  | written : String → String → SaveResult
deriving DecidableEq

/-- The output path `_save_markdown` writes to:
`output[/{language}]/{sanitized filename}.md`. -/
def savePath (language : Option String) (filename : String) : String :=
  let dir := match language with
    | some l => if l ≠ "" then "output/" ++ l else "output"
    | none => "output"
  dir ++ "/" ++ sanitizeFilename filename ++ ".md"

/-- Model of `SiteScraper._save_markdown`.  The content is stripped and split
into lines; with at most two lines, or with a post-preamble total under 100
characters after stripping, nothing is written; otherwise the content is
written to `savePath`.  (The source also returns `False` on an `IOError`
during the write; I/O faults are outside this model.) -/
def save_markdown (language : Option String) (content filename : String) : SaveResult :=
  if (splitLines (pyStrip content)).length ≤ 2 then .skipped
  else if strLen (pyStrip (joinLines ((splitLines (pyStrip content)).drop 2))) < 100 then
    .skipped
  else .written (savePath language filename) content

/-! ## Index creation: `SiteScraper._create_index` -/

/-- The filename-from-URL rule used both in `scrape_site` and `_create_index`:
`urlparse(url).path.strip('/').replace('/', '_') or 'index'`. -/
def slotName (url : String) : String :=
  let f := replaceChar (stripChar (urlparse url).path '/') '/' '_'
  if f = "" then "index" else f

/-- One bullet line of the index: `- [{url}]({output_path}/{filename}.md)`. -/
def indexBullet (language : Option String) (url : String) : String :=
  let output_path := match language with
    | some l => if l ≠ "" then "output/" ++ l else "output"
    | none => "output"
  "- [" ++ url ++ "](" ++ output_path ++ "/" ++ slotName url ++ ".md)"

/-- Python `sorted` on the visited-URL set: a stable sort by the
code-point lexicographic order on strings. -/
def sortedUrls (visited : List String) : List String :=
  List.insertionSort (fun a b : String => a ≤ b) visited

/-- The line list built by `_create_index`: a header, then one bullet per
visited URL in sorted order.  `self.visited_urls` is a Python set, modelled
as the list of visited URLs; iteration order is normalised by `sorted`. -/
def create_index_content (language : Option String) (visited : List String) : List String :=
  "# Site Content Index\n" :: (sortedUrls visited).map (indexBullet language)

/-- The index slot name: `site_index`, or `site_index_{language}`. -/
def indexFilename (language : Option String) : String :=
  match language with
  | some l => if l ≠ "" then "site_index_" ++ l else "site_index"
  | none => "site_index"

/-- Model of `SiteScraper._create_index`: build the line list, join it, and
pass it through `_save_markdown` under the index slot name. -/
def create_index (language : Option String) (visited : List String) : SaveResult :=
  save_markdown language (joinLines (create_index_content language visited))
    (indexFilename language)

/-! ## Frontier and crawl loop: `SiteScraper.scrape_site` -/

/-- The crawl state: the visited set (a Python set, modelled as a
duplicate-free list in visit order), the pending FIFO deque, the files
written so far as (path, content) pairs, and the page counter. -/
structure CrawlState where
  visited : List String
  queue : List String
  saved : List (String × String)
  pageCount : Nat
deriving DecidableEq

/-- The link-enqueue step of `scrape_site`
(`if link not in self.visited_urls: self.urls_to_visit.append(link)`):
the link is appended unless already visited.  The pending queue is not
consulted. -/
def push_link (s : CrawlState) (link : String) : CrawlState :=
  if s.visited.contains link then s
  else { s with queue := s.queue ++ [link] }

/-- The page budget test: `max_pages is None or page_count < max_pages`. -/
def budgetOk (maxPages : Option Nat) (count : Nat) : Bool :=
  match maxPages with
  | none => true
  | some m => count < m

/-- One full crawl loop, fuelled for termination (the source loop can run
unboundedly when `max_pages is None`).  `render` is the external
renderer-plus-extractor: given a URL it returns the markdown content of the
page and the list of admissible links discovered on it, or `none` when
navigation or processing raises (the source logs and continues, leaving
visited state and page count unchanged).  Link iteration order over the
Python set `new_links` is absorbed into the order of the returned list. -/
def scrapeLoop (render : String → Option (String × List String)) (language : Option String)
    (maxPages : Option Nat) : Nat → CrawlState → CrawlState
  | 0, s => s
  | fuel + 1, s =>
    match s.queue with
    | [] => s
    | current :: rest =>
      if !budgetOk maxPages s.pageCount then s
      else if s.visited.contains current then
        scrapeLoop render language maxPages fuel { s with queue := rest }
      else
        match render current with
        | none => scrapeLoop render language maxPages fuel { s with queue := rest }
        | some (content, links) =>
          let res := save_markdown language content (slotName current)
          let saved' := match res with
            | .written p c => s.saved ++ [(p, c)]
            | .skipped => s.saved
          let s' : CrawlState :=
            { visited := s.visited ++ [current], queue := rest,
              saved := saved', pageCount := s.pageCount + 1 }
          scrapeLoop render language maxPages fuel (links.foldl push_link s')

/-- Model of `SiteScraper.scrape_site`: run the fuelled loop from the initial
state (`urls_to_visit = deque([base_url])`, everything else empty), then build
the index from the final visited set.  Returns the final state and the index
save outcome. -/
def scrape_site (render : String → Option (String × List String)) (language : Option String)
    (maxPages : Option Nat) (base_url : String) (fuel : Nat) : CrawlState × SaveResult :=
  let final := scrapeLoop render language maxPages fuel ⟨[], [base_url], [], 0⟩
  (final, create_index language final.visited)

/-! ## Content extraction: `SiteScraper._create_markdown_content`

The rendered DOM is modelled by a node table: elements are node identifiers,
each carrying a tag name, raw text, a visibility flag, and an optional parent
identifier (a missing parent models `find_element(By.XPATH, "..")` raising,
which the per-element handler swallows).  Selector queries return `none` to
model a raised exception at that query, matching the try/except placement in
the source: per-selector faults skip that selector, per-container faults skip
the rest of that container, per-element faults skip that element, and a fault
locating the fallback `body` element hits the outermost handler. -/

/-- One DOM element snapshot. -/
structure Node where
  tag : String
  rawText : String
  displayed : Bool
  parent : Option Nat
deriving DecidableEq

/-- A rendered page as the extractor queries it. -/
structure Page where
  title : Option String
  selectorResults : String → Option (List Nat)
  body : Option Nat
  nodes : Nat → Node
  textQuery : Nat → Option (List Nat)
  interQuery : Nat → Option (List Nat)

/-- One `content.append` site of `_create_markdown_content`, tagged by which
append produced it.  All constructors except `provenance` correspond to
content blocks (the title is emitted as a level-1 heading). -/
inductive Entry where
  | heading : Nat → String → Entry
  | provenance : String → Entry
  | para : String → Entry
  | listItem : String → Entry
  | emph : String → Entry
deriving DecidableEq

/-- Render one entry exactly as the source formats the appended string. -/
def renderEntry : Entry → String
  | .heading lvl t => ⟨List.replicate lvl '#'⟩ ++ " " ++ t ++ "\n"
  | .provenance url => "*Original URL: " ++ url ++ "*\n"
  | .para t => t ++ "\n"
  | .listItem t => "- " ++ t ++ "\n"
  | .emph t => "_" ++ t ++ "_\n"

/-- Whether an entry is a content block (everything but the provenance line). -/
def isContentBlock : Entry → Bool
  | .provenance _ => false
  | _ => true

/-- The selector list probed for main content areas, in source order. -/
def contentSelectors : List String :=
  ["main", "article", "#content", ".content", ".main-content",
   ".page-content", ".entry-content", ".post-content",
   "section", ".section", "[role='main']", ".container",
   "#main", ".main", ".body-content"]

/-- Accumulate candidate containers over the selector list; a `none` query
result models the per-selector exception, skipped by `continue`. -/
def collectMains (page : Page) : List String → List Nat
  | [] => []
  | sel :: rest =>
    (match page.selectorResults sel with
     | none => []
     | some es => es) ++ collectMains page rest

/-- Process one element of the text pass: skip when hidden, when the parent
lookup faults, when the parent is itself in the query result (ancestor
deduplication), or when the cleaned text is empty; otherwise classify by tag.
A heading tag is any two-character tag starting with `h`; `int(tag_name[1])`
raising on a non-digit is swallowed per-element (so e.g. `hr` is skipped). -/
def processElement (nodes : Nat → Node) (elems : List Nat) (e : Nat) : Option Entry :=
  let n := nodes e
  if !n.displayed then none
  else
    match n.parent with
    | none => none
    | some p =>
      if elems.contains p then none
      else
        let text := clean_text n.rawText
        if text = "" then none
        else
          match n.tag.data with
          | ['h', d] =>
            if d.isDigit then some (.heading (d.toNat - '0'.toNat) text) else none
          | _ => if n.tag = "li" then some (.listItem text) else some (.para text)

/-- Process one element of the button/link pass: a visible element whose
cleaned text is nonempty and longer than 5 characters becomes an emphasis
entry. -/
def processInter (nodes : Nat → Node) (e : Nat) : Option Entry :=
  let n := nodes e
  if !n.displayed then none
  else
    let text := clean_text n.rawText
    if text ≠ "" && decide (5 < strLen text) then some (.emph text) else none

/-- Process one candidate container.  A faulting text query hits the
per-container handler before anything is appended; a faulting button/link
query hits it after the text entries were already appended. -/
def processContainer (page : Page) (c : Nat) : List Entry :=
  match page.textQuery c with
  | none => []
  | some elems =>
    let textEntries := elems.filterMap (processElement page.nodes elems)
    match page.interQuery c with
    | none => textEntries
    | some inters => textEntries ++ inters.filterMap (processInter page.nodes)

/-- The preamble appended before any DOM traversal: the title as a level-1
heading when truthy, then the provenance line. -/
def preambleEntries (title : Option String) (url : String) : List Entry :=
  (match title with
   | none => []
   | some t => if t ≠ "" then [Entry.heading 1 (clean_text t)] else []) ++
  [Entry.provenance url]

/-- Model of `SiteScraper._create_markdown_content` at the granularity of
appended entries.  When no selector yields a container the source falls back
to `find_element(By.TAG_NAME, "body")`; that call raising (`body = none`) is
the total extraction fault caught by the outermost handler, which returns the
content accumulated so far — exactly the preamble. -/
def create_markdown_entries (page : Page) (url : String) : List Entry :=
  match collectMains page contentSelectors with
  | [] =>
    match page.body with
    | none => preambleEntries page.title url
    | some b => preambleEntries page.title url ++ processContainer page b
  | mains => preambleEntries page.title url ++ (mains.map (processContainer page)).flatten

/-- Model of `SiteScraper._create_markdown_content`: the rendered string,
`'\n'.join(content)`. -/
def create_markdown_content (page : Page) (url : String) : String :=
  joinLines ((create_markdown_entries page url).map renderEntry)

/-- A 120-character line used as qualifying body content in witnesses. -/
def longPara : String :=
  ⟨List.replicate 120 'a'⟩

/-! ## Helper lemmas (shared across claims) -/

/-- `_save_markdown` writes nothing when the post-preamble content is short:
if the content from the third line onward is under 100 characters after
stripping, the result is `skipped` (this also covers contents of at most two
lines, whose third-line-onward content is empty). -/
theorem save_markdown_skip_short (language : Option String) (content filename : String)
    (h : strLen (pyStrip (joinLines ((splitLines (pyStrip content)).drop 2))) < 100) :
    save_markdown language content filename = .skipped := by
  unfold save_markdown
  by_cases h2 : (splitLines (pyStrip content)).length ≤ 2
  · rw [if_pos h2]
  · rw [if_neg h2, if_pos h]

/-- `_save_markdown` writes the content to its output path when both gate
thresholds are met. -/
theorem save_markdown_writes (language : Option String) (content filename : String)
    (h1 : 2 < (splitLines (pyStrip content)).length)
    (h2 : 100 ≤ strLen (pyStrip (joinLines ((splitLines (pyStrip content)).drop 2)))) :
    save_markdown language content filename = .written (savePath language filename) content := by
  unfold save_markdown
  rw [if_neg (by omega), if_neg (by omega)]

/-- A content of at most two stripped lines has an empty third-line-onward
remainder, hence a remainder length of `0`. -/
theorem short_lines_drop_len (content : String)
    (h : (splitLines (pyStrip content)).length ≤ 2) :
    strLen (pyStrip (joinLines ((splitLines (pyStrip content)).drop 2))) = 0 := by
  rw [List.drop_eq_nil_of_le h]
  rfl

/-- When every selector query faults or returns no elements, no candidate
containers are collected. -/
theorem collectMains_eq_nil (page : Page) (sels : List String)
    (h : ∀ sel ∈ sels, page.selectorResults sel = none ∨ page.selectorResults sel = some []) :
    collectMains page sels = [] := by
  induction sels with
  | nil => rfl
  | cons sel rest ih =>
    unfold collectMains
    rcases h sel (List.mem_cons_self sel rest) with h1 | h1 <;>
      rw [h1] <;>
      simpa using ih (fun s hs => h s (List.mem_cons_of_mem sel hs))

/-! ## Claim theorems -/

/-- C1, counterexample: pushing a URL that is already in the pending queue
(but not visited) appends a second copy, so the observable queue contents
change.  Here the queue is `["a"]`, the visited set empty, and pushing `"a"`
yields the queue `["a", "a"]`. -/
theorem push_link_queued_counterexample :
    "a" ∈ (CrawlState.mk [] ["a"] [] 0).queue ∧
    (push_link (CrawlState.mk [] ["a"] [] 0) "a").queue ≠
      (CrawlState.mk [] ["a"] [] 0).queue := by
  decide

/-- C1, amended: link enqueueing is a no-op exactly for already-visited URLs;
it never consults the pending queue, so a URL that is only pending is
appended again. -/
theorem push_link_visited_noop (s : CrawlState) (url : String) :
    (url ∈ s.visited → push_link s url = s) ∧
    (url ∉ s.visited → (push_link s url).queue = s.queue ++ [url]) := by
  constructor <;> intro h <;> simp [push_link, h]

/-- C1, witness for the amended theorem at concrete states. -/
theorem push_link_visited_noop_witness :
    (push_link (CrawlState.mk ["a"] [] [] 0) "a" = CrawlState.mk ["a"] [] [] 0) ∧
    (push_link (CrawlState.mk [] [] [] 0) "a").queue = [] ++ ["a"] :=
  ⟨(push_link_visited_noop (CrawlState.mk ["a"] [] [] 0) "a").1 (by decide),
   (push_link_visited_noop (CrawlState.mk [] [] [] 0) "a").2 (by decide)⟩

/-- C3: `_save_markdown` returns `skipped` (writing nothing) for content of
at most two lines or whose content from the third line onward is under 100
characters after stripping; content meeting both thresholds is written. -/
theorem save_markdown_gate (language : Option String) (content filename : String) :
    ((splitLines (pyStrip content)).length ≤ 2 ∨
        strLen (pyStrip (joinLines ((splitLines (pyStrip content)).drop 2))) < 100 →
      save_markdown language content filename = .skipped) ∧
    (2 < (splitLines (pyStrip content)).length ∧
        100 ≤ strLen (pyStrip (joinLines ((splitLines (pyStrip content)).drop 2))) →
      save_markdown language content filename =
        .written (savePath language filename) content) := by
  constructor
  · intro h
    rcases h with h | h
    · exact save_markdown_skip_short language content filename
        (by rw [short_lines_drop_len content h]; omega)
    · exact save_markdown_skip_short language content filename h
  · intro h
    exact save_markdown_writes language content filename h.1 h.2

/-- C3, witness: a three-line content whose tail is one character is
skipped; a content with a 120-character body line is written. -/
theorem save_markdown_gate_witness :
    save_markdown none "# T\n\n*Original URL: u*\n\nx\n" "a" = .skipped ∧
    save_markdown none ("# T\n\n*Original URL: u*\n\n" ++ longPara ++ "\n") "a" =
      .written "output/a.md" ("# T\n\n*Original URL: u*\n\n" ++ longPara ++ "\n") :=
  ⟨(save_markdown_gate none "# T\n\n*Original URL: u*\n\nx\n" "a").1 (by decide),
   (save_markdown_gate none ("# T\n\n*Original URL: u*\n\n" ++ longPara ++ "\n") "a").2
     (by constructor <;> decide)⟩

/-- C4: the filter rejects every URL whose parsed network authority differs
from the configured domain, whatever its other components. -/
theorem valid_url_rejects_foreign_domain (domain : String) (language : Option String)
    (url : String) (h : (urlparse url).netloc ≠ domain) :
    is_valid_url domain language url = false := by
  unfold is_valid_url
  by_cases h0 : url = ""
  · rw [if_pos h0]
  · rw [if_neg h0, if_pos h]

/-- C4, witness at a concrete foreign-authority URL. -/
theorem valid_url_rejects_foreign_domain_witness :
    (urlparse "https://other.com/x").netloc ≠ "example.com" ∧
    is_valid_url "example.com" none "https://other.com/x" = false :=
  ⟨by decide,
   valid_url_rejects_foreign_domain "example.com" none "https://other.com/x" (by decide)⟩

/-- C6, counterexample: the extension check looks at the end of the whole
URL string, not of its path: `https://example.com/brochure.pdf?x=1` has a
path ending in `.pdf` yet is accepted by the filter. -/
theorem extension_check_counterexample :
    strEndsWith (pyLower (urlparse "https://example.com/brochure.pdf?x=1").path) ".pdf" = true ∧
    is_valid_url "example.com" none "https://example.com/brochure.pdf?x=1" = true := by
  decide

/-- C6, amended: the filter rejects every URL whose full lowercased URL
string ends in one of the download extensions; the rejection is decided on
the URL string, so a path ending in an extension followed by a query string
is not caught. -/
theorem valid_url_rejects_download_suffix (domain : String) (language : Option String)
    (url : String)
    (h : downloadExtensions.any (fun ext => strEndsWith (pyLower url) ext) = true) :
    is_valid_url domain language url = false := by
  unfold is_valid_url
  by_cases h0 : url = ""
  · rw [if_pos h0]
  · rw [if_neg h0]
    by_cases h1 : (urlparse url).netloc ≠ domain
    · rw [if_pos h1]
    · rw [if_neg h1]
      by_cases h2 : strHasChar url '#' = true
      · rw [if_pos h2]
      · rw [if_neg h2, if_pos h]

/-- C6, witness: `https://example.com/brochure.pdf` is rejected. -/
theorem valid_url_rejects_download_suffix_witness :
    downloadExtensions.any
      (fun ext => strEndsWith (pyLower "https://example.com/brochure.pdf") ext) = true ∧
    is_valid_url "example.com" none "https://example.com/brochure.pdf" = false :=
  ⟨by decide,
   valid_url_rejects_download_suffix "example.com" none "https://example.com/brochure.pdf"
     (by decide)⟩

/-- C7: filename sanitization maps exactly the characters
`< > : " / \ | ? *` to an underscore, leaves every other character
unchanged, and is idempotent. -/
theorem sanitize_filename_spec :
    (∀ s : String, (sanitizeFilename s).data =
        s.data.map (fun c =>
          if c ∈ ['<', '>', ':', '"', '/', '\\', '|', '?', '*'] then '_' else c)) ∧
    (∀ s : String, sanitizeFilename (sanitizeFilename s) = sanitizeFilename s) := by
  have hiff : ∀ c : Char,
      isFsHostile c = true ↔ c ∈ ['<', '>', ':', '"', '/', '\\', '|', '?', '*'] := by
    intro c
    simp only [isFsHostile, Bool.or_eq_true, decide_eq_true_eq, List.mem_cons,
      List.not_mem_nil, or_false]
    tauto
  constructor
  · intro s
    unfold sanitizeFilename
    apply List.map_congr_left
    intro c _
    by_cases h : isFsHostile c = true
    · rw [if_pos h, if_pos ((hiff c).mp h)]
    · rw [if_neg h, if_neg (fun hm => h ((hiff c).mpr hm))]
  · intro s
    unfold sanitizeFilename
    apply congrArg
    rw [List.map_map]
    apply List.map_congr_left
    intro c _
    simp only [Function.comp_apply]
    by_cases h : isFsHostile c = true
    · simp [h]
    · simp [h]

/-- C5: with a language constraint set, admissibility equals the conjunction
of admissibility without the constraint and the case-insensitive path test
(path equal to `/lang` or starting with `/lang/`). -/
theorem valid_url_language_filter (domain lang url : String) (h : lang ≠ "") :
    is_valid_url domain (some lang) url =
      (is_valid_url domain none url && pathLangOk lang url) := by
  unfold is_valid_url
  by_cases h0 : url = ""
  · rw [if_pos h0, if_pos h0]; rfl
  · rw [if_neg h0, if_neg h0]
    by_cases h1 : (urlparse url).netloc ≠ domain
    · rw [if_pos h1, if_pos h1]; rfl
    · rw [if_neg h1, if_neg h1]
      by_cases h2 : strHasChar url '#' = true
      · rw [if_pos h2, if_pos h2]; rfl
      · rw [if_neg h2, if_neg h2]
        by_cases h3 : downloadExtensions.any (fun ext => strEndsWith (pyLower url) ext) = true
        · rw [if_pos h3, if_pos h3]; rfl
        · rw [if_neg h3, if_neg h3]
          by_cases h4 : socialPatterns.any (fun p => strContains (pyLower url) p) = true
          · rw [if_pos h4, if_pos h4]; rfl
          · rw [if_neg h4, if_neg h4]
            rw [if_pos (show langTruthy (some lang) = true by
              simp [langTruthy, h])]
            rw [if_neg (show ¬langTruthy none = true by simp [langTruthy])]
            cases hp : pathLangOk lang url <;> simp [hp]

/-- C5, witness at a concrete constrained URL with an uppercased path. -/
theorem valid_url_language_filter_witness :
    is_valid_url "example.com" (some "en") "https://example.com/EN/about" =
      (is_valid_url "example.com" none "https://example.com/EN/about" &&
        pathLangOk "en" "https://example.com/EN/about") :=
  valid_url_language_filter "example.com" "en" "https://example.com/EN/about" (by decide)

/-- C8: the index URL list is sorted ascending by the lexicographic string
order, and the index line list is invariant under permutation of the visited
set, i.e. independent of discovery/crawl order. -/
theorem index_entries_sorted (language : Option String) (visited other : List String)
    (hperm : visited.Perm other) :
    List.Sorted (fun a b : String => a ≤ b) (sortedUrls visited) ∧
    create_index_content language visited = create_index_content language other := by
  refine ⟨List.sorted_insertionSort _ visited, ?_⟩
  unfold create_index_content
  have hs : sortedUrls visited = sortedUrls other :=
    List.eq_of_perm_of_sorted
      (((List.perm_insertionSort _ visited).trans hperm).trans
        (List.perm_insertionSort _ other).symm)
      (List.sorted_insertionSort _ visited)
      (List.sorted_insertionSort _ other)
  rw [hs]

/-- C8, witness: two URLs discovered in descending order are still listed
ascending, and the index is the same for both discovery orders. -/
theorem index_entries_sorted_witness :
    List.Sorted (fun a b : String => a ≤ b)
      (sortedUrls ["https://example.com/b", "https://example.com/a"]) ∧
    create_index_content none ["https://example.com/b", "https://example.com/a"] =
      create_index_content none ["https://example.com/a", "https://example.com/b"] :=
  index_entries_sorted none _ _
    (List.Perm.swap "https://example.com/a" "https://example.com/b" [])

/-- The markdown content of a near-empty rendered page: a title heading, the
provenance line, and one 10-character paragraph, joined as
`_create_markdown_content` joins its appended strings. -/
def shortPageContent : String :=
  "# T\n\n*Original URL: https://example.com/a*\n\n0123456789\n"

/-- A renderer returning the near-empty page for the seed URL and failing on
everything else. -/
def renderShortPage (url : String) : Option (String × List String) :=
  if url = "https://example.com/a" then some (shortPageContent, []) else none

/-- C2, counterexample: crawling a single page whose document fails the
content gate writes no file (`saved = []`), yet the crawl-end index still
contains a bullet for that page: the index lists every visited URL, not only
persisted documents. -/
theorem index_unpersisted_counterexample :
    (scrape_site renderShortPage none none "https://example.com/a" 2).1.saved = [] ∧
    indexBullet none "https://example.com/a" ∈
      create_index_content none
        (scrape_site renderShortPage none none "https://example.com/a" 2).1.visited := by
  decide

/-- C2, amended: the index built at crawl end carries exactly one bullet per
visited URL — one header line plus `|visited|` bullets — regardless of
whether the page's document was persisted. -/
theorem index_bullet_per_visited (language : Option String) (visited : List String)
    (url : String) (h : url ∈ visited) :
    indexBullet language url ∈ create_index_content language visited ∧
    (create_index_content language visited).length = visited.length + 1 := by
  constructor
  · exact List.mem_cons_of_mem _
      (List.mem_map_of_mem _ ((List.perm_insertionSort _ visited).mem_iff.mpr h))
  · unfold create_index_content sortedUrls
    simp [(List.perm_insertionSort (fun a b : String => a ≤ b) visited).length_eq]

/-- C2, witness for the amended theorem at a one-URL visited set. -/
theorem index_bullet_per_visited_witness :
    indexBullet none "https://example.com/a" ∈
      create_index_content none ["https://example.com/a"] ∧
    (create_index_content none ["https://example.com/a"]).length =
      (["https://example.com/a"] : List String).length + 1 :=
  index_bullet_per_visited none ["https://example.com/a"] "https://example.com/a"
    (List.mem_singleton.mpr rfl)

/-- C10: the index document runs through the same save gate: whenever its
content from the third rendered line onward is under 100 characters after
stripping, no `site_index` file is written at all. -/
theorem index_save_gate (language : Option String) (visited : List String)
    (h : strLen (pyStrip (joinLines ((splitLines (pyStrip
        (joinLines (create_index_content language visited)))).drop 2))) < 100) :
    create_index language visited = .skipped := by
  unfold create_index
  exact save_markdown_skip_short language _ _ h

/-- C10, witness: a crawl that visited nothing and a crawl with a single
short bullet both produce no index file. -/
theorem index_save_gate_witness :
    (strLen (pyStrip (joinLines ((splitLines (pyStrip
        (joinLines (create_index_content none ([] : List String))))).drop 2))) < 100 ∧
      create_index none ([] : List String) = .skipped) ∧
    (strLen (pyStrip (joinLines ((splitLines (pyStrip
        (joinLines (create_index_content none ["https://example.com/a"])))).drop 2))) < 100 ∧
      create_index none ["https://example.com/a"] = .skipped) :=
  ⟨⟨by decide, index_save_gate none [] (by decide)⟩,
   ⟨by decide, index_save_gate none ["https://example.com/a"] (by decide)⟩⟩

/-- A page whose DOM broke completely: a nonempty title is exposed, every
content-selector query raises, and the fallback `body` lookup raises too (the
total extraction fault). -/
def noBodyPage : Page where
  title := some "Example Domain"
  selectorResults := fun _ => none
  body := none
  nodes := fun _ => ⟨"div", "", false, none⟩
  textQuery := fun _ => none
  interQuery := fun _ => none

/-- C9, counterexample: on a total extraction fault the returned document is
not an empty block sequence — the already-appended title heading survives, so
the block sequence is `[# Example Domain]`. -/
theorem extraction_fault_block_counterexample :
    (create_markdown_entries noBodyPage "https://example.com/").filter isContentBlock =
      [Entry.heading 1 "Example Domain"] ∧
    (create_markdown_entries noBodyPage "https://example.com/").filter isContentBlock ≠
      [] := by
  decide

/-- C9, amended: extraction is a total function of the page model, and on a
total extraction fault (no selector yields a container and the `body` lookup
faults) the returned document consists of exactly the preamble — the title
heading when the title is nonempty, and the provenance line — with no content
extracted beyond it. -/
theorem extraction_total_fault_preamble (page : Page) (url : String)
    (hsel : ∀ sel ∈ contentSelectors,
      page.selectorResults sel = none ∨ page.selectorResults sel = some [])
    (hbody : page.body = none) :
    create_markdown_entries page url = preambleEntries page.title url := by
  unfold create_markdown_entries
  rw [collectMains_eq_nil page contentSelectors hsel, hbody]

/-- C9, witness for the amended theorem at the concrete faulting page. -/
theorem extraction_total_fault_preamble_witness :
    create_markdown_entries noBodyPage "https://example.com/x" =
      preambleEntries noBodyPage.title "https://example.com/x" :=
  extraction_total_fault_preamble noBodyPage "https://example.com/x"
    (fun _ _ => Or.inl rfl) rfl

end SiteScraper
